import Mathlib

/-!
Verification of the clipboard worker coordinator of clipcat
(`src/bin/clipcatd/worker/clipboard.rs`).

The coordinator (`ClipboardWorker`) races clipboard events against control
messages, updates the Clip Store and History Store on each event, and flushes
history on shutdown.  The coordinator's own code (`run`, `handle_event`,
`handle_message`) is embedded directly from the source; the external
collaborators (`ClipboardManager`, `HistoryManager`, the channels) are not in
the fragment and are modelled from the spec where noted.
-/

namespace Clipcat

/-- Selection kind: which OS-level clipboard selection an event refers to
(`ClipboardType` in the source). -/
inductive ClipboardType
  | Clipboard
  | Primary
  deriving DecidableEq, Repr

/-- Modelled from the spec: `ClipboardEvent` (defined outside the fragment)
carries a selection kind and the captured content. -/
structure ClipboardEvent where
  clipboard_type : ClipboardType
  data : String
  deriving DecidableEq, Repr

/-- Modelled from the spec: `ClipboardData` (defined outside the fragment) is
derived deterministically from a `ClipboardEvent`: content plus provenance. -/
structure ClipboardData where
  source : ClipboardType
  data : String
  deriving DecidableEq, Repr

/-- The conversion `ClipboardData::from(event)` used by `handle_event`. -/
def ClipboardData.fromEvent (e : ClipboardEvent) : ClipboardData :=
  { source := e.clipboard_type, data := e.data }

/-- A record held by the Clip Store: an assigned id plus the data. -/
structure ClipEntry where
  id : Nat
  data : ClipboardData
  deriving DecidableEq, Repr

/-- Modelled from the spec: the Clip Store (`ClipboardManager`, defined outside
the fragment) holds the ordered collection of records most-recent-first,
assigns a fresh record id on insert, tracks one selection marker per selection
kind, and answers a capacity query.  Its internal eviction policy is out of
scope of the spec and not modelled. -/
structure ClipboardManager where
  cap : Nat
  clips : List ClipEntry
  nextId : Nat
  primaryMarker : Option Nat
  clipboardMarker : Option Nat
  deriving DecidableEq, Repr

/-- Modelled from the spec: `insert(data) -> id` assigns a fresh id and stores
the record most-recent-first. -/
def ClipboardManager.insert (m : ClipboardManager) (d : ClipboardData) :
    Nat × ClipboardManager :=
  (m.nextId,
    { m with clips := ⟨m.nextId, d⟩ :: m.clips, nextId := m.nextId + 1 })

/-- Modelled from the spec: `mark_as_primary(id) -> Result` marks the record
with that id as the current Primary selection; fails if the id is absent. -/
def ClipboardManager.mark_as_primary (m : ClipboardManager) (i : Nat) :
    ClipboardManager × Except String Unit :=
  if m.clips.any (fun e => e.id == i) then
    ({ m with primaryMarker := some i }, Except.ok ())
  else (m, Except.error "no such record")

/-- Modelled from the spec: `mark_as_clipboard(id) -> Result` marks the record
with that id as the current Clipboard selection; fails if the id is absent. -/
def ClipboardManager.mark_as_clipboard (m : ClipboardManager) (i : Nat) :
    ClipboardManager × Except String Unit :=
  if m.clips.any (fun e => e.id == i) then
    ({ m with clipboardMarker := some i }, Except.ok ())
  else (m, Except.error "no such record")

/-- Modelled from the spec: `list()` enumerates the records, most-recent-first;
a read-only operation. -/
def ClipboardManager.list (m : ClipboardManager) : List ClipboardData :=
  m.clips.map ClipEntry.data

/-- Modelled from the spec: `capacity()` is a read-only capacity query. -/
def ClipboardManager.capacity (m : ClipboardManager) : Nat := m.cap

/-- Modelled from the spec: the History Store (`HistoryManager`, defined
outside the fragment) persists records; `failing` models an environment whose
persistence operations fail, so that the coordinator's error absorption is
observable. -/
structure HistoryManager where
  records : List ClipboardData
  failing : Bool
  deriving DecidableEq, Repr

/-- Modelled from the spec: `put(data) -> Result` persists one record. -/
def HistoryManager.put (h : HistoryManager) (d : ClipboardData) :
    HistoryManager × Except String Unit :=
  if h.failing then (h, Except.error "history failure")
  else ({ h with records := h.records ++ [d] }, Except.ok ())

/-- Modelled from the spec: `save_and_shrink_to(records, capacity) -> Result`
persists the snapshot and shrinks the store to the capacity, so that
afterwards its size is at most the capacity. -/
def HistoryManager.save_and_shrink_to (h : HistoryManager)
    (clips : List ClipboardData) (cap : Nat) :
    HistoryManager × Except String Unit :=
  if h.failing then (h, Except.error "history failure")
  else ({ h with records := clips.take cap }, Except.ok ())

/-- The control messages understood by the worker (`Message` in the source);
one variant, `Shutdown`. -/
inductive Message
  | Shutdown
  deriving DecidableEq, Repr

/-- The daemon-wide control message sent on `ctl_tx` (`CtlMessage::Shutdown`). -/
inductive CtlMessage
  | Shutdown
  deriving DecidableEq, Repr

/-- The broadcast receive errors (`broadcast::error::RecvError`): the stream is
permanently closed, or the receiver lagged and dropped `n` events. -/
inductive RecvError
  | Closed
  | Lagged (n : Nat)
  deriving DecidableEq, Repr

/-- Audit record of one operation issued by the worker on a shared resource:
each constructor corresponds to one call site in `clipboard.rs`. -/
inductive StoreOp
  | insertOp (d : ClipboardData)
  | markPrimary (i : Nat)
  | markClipboard (i : Nat)
  | histPut (d : ClipboardData)
  | listClips
  | queryCapacity
  | saveAndShrink (clips : List ClipboardData) (cap : Nat)
  | ctlSend (m : CtlMessage)
  deriving DecidableEq, Repr

/-- The worker's world: the two stores, the pending items of the broadcast
event stream, the control-message queue (`msg_rx`, with its closed flag), the
liveness of the `ctl_tx` receiver, the messages actually delivered on
`ctl_tx`, and the audit log of issued operations. -/
structure WorkerState where
  cm : ClipboardManager
  hm : HistoryManager
  eventQueue : List (Except RecvError ClipboardEvent)
  msgQueue : List Message
  msgClosed : Bool
  ctlReceiverAlive : Bool
  ctlDelivered : List CtlMessage
  log : List StoreOp
  deriving Repr

/-- `ClipboardWorker::handle_event` (clipboard.rs lines 64-93): `Closed` sends
one internal shutdown on `ctl_tx` (result discarded) and returns `true`;
`Lagged` does nothing and returns `false`; a received event is converted,
inserted, marked primary then clipboard, put into history (each result
discarded), and returns `false`. -/
def handle_event (s : WorkerState)
    (event : Except RecvError ClipboardEvent) : WorkerState × Bool :=
  match event with
  | Except.error RecvError.Closed =>
      ({ s with
          ctlDelivered :=
            if s.ctlReceiverAlive then s.ctlDelivered ++ [CtlMessage.Shutdown]
            else s.ctlDelivered,
          log := s.log ++ [StoreOp.ctlSend CtlMessage.Shutdown] }, true)
  | Except.error (RecvError.Lagged _) => (s, false)
  | Except.ok e =>
      let data := ClipboardData.fromEvent e
      let p := s.cm.insert data
      let q := p.2.mark_as_primary p.1
      let r := q.1.mark_as_clipboard p.1
      let w := s.hm.put data
      ({ s with
          cm := r.1,
          hm := w.1,
          log := s.log ++ [StoreOp.insertOp data, StoreOp.markPrimary p.1,
            StoreOp.markClipboard p.1, StoreOp.histPut data] }, false)

/-- `ClipboardWorker::handle_message` (clipboard.rs lines 95-105): channel
closure (`None`) and `Shutdown` both return `true`. -/
def handle_message (msg : Option Message) : Bool :=
  match msg with
  | none => true
  | some Message.Shutdown => true

/-- Which branch of the `futures::select!` resolves in one loop iteration; the
select has no fixed priority, so the choice is left to the scheduler. -/
inductive Branch
  | event
  | message
  deriving DecidableEq, Repr

/-- One iteration of the select loop, the scheduler having resolved the race
to branch `b`.  A branch that is not ready (empty event queue; empty and open
message queue) would keep the select pending, modelled as a no-progress step. -/
def step (s : WorkerState) (b : Branch) : WorkerState × Bool :=
  match b with
  | Branch.event =>
      match s.eventQueue with
      | [] => (s, false)
      | ev :: rest => handle_event { s with eventQueue := rest } ev
  | Branch.message =>
      match s.msgQueue with
      | m :: rest => ({ s with msgQueue := rest }, handle_message (some m))
      | [] =>
          if s.msgClosed then (s, handle_message none)
          else (s, false)

/-- The `while !quit` loop of `ClipboardWorker::run` (clipboard.rs lines
40-45), driven by a finite schedule of branch choices; returns the state at
exit and whether the loop decided to quit within the schedule. -/
def runLoop (s : WorkerState) (sched : List Branch) : WorkerState × Bool :=
  match sched with
  | [] => (s, false)
  | b :: bs =>
      let p := step s b
      if p.2 then (p.1, true) else runLoop p.1 bs

/-- The termination sequence of `ClipboardWorker::run` (clipboard.rs lines
47-59): snapshot `(list, capacity)` from the Clip Store, then
`save_and_shrink_to` on the History Store with exactly that snapshot; a
failure is logged and discarded. -/
def terminate (s : WorkerState) : WorkerState × Except String Unit :=
  let clips := s.cm.list
  let history_capacity := s.cm.capacity
  let w := s.hm.save_and_shrink_to clips history_capacity
  ({ s with
      hm := w.1,
      log := s.log ++ [StoreOp.listClips, StoreOp.queryCapacity,
        StoreOp.saveAndShrink clips history_capacity] }, w.2)

/-- `ClipboardWorker::run` (clipboard.rs lines 33-62) under a finite schedule:
if the loop quits within the schedule, the termination sequence runs and the
function returns `Ok(())`; otherwise the loop is still pending (`none`). -/
def run (s : WorkerState) (sched : List Branch) :
    Option (WorkerState × Except String Unit) :=
  let p := runLoop s sched
  if p.2 then some ((terminate p.1).1, Except.ok ()) else none

/-- A fresh Clip Store with the given capacity. -/
def initManager (cap : Nat) : ClipboardManager :=
  { cap := cap, clips := [], nextId := 0,
    primaryMarker := none, clipboardMarker := none }

/-- A fresh worker world: empty stores, the given pending stream items and
control messages, all channels healthy. -/
def initWorker (cap : Nat) (evq : List (Except RecvError ClipboardEvent))
    (mq : List Message) : WorkerState :=
  { cm := initManager cap, hm := { records := [], failing := false },
    eventQueue := evq, msgQueue := mq, msgClosed := false,
    ctlReceiverAlive := true, ctlDelivered := [], log := [] }

/-- Number of `save_and_shrink_to` calls recorded in an audit log. -/
def countShrink (l : List StoreOp) : Nat :=
  match l with
  | [] => 0
  | StoreOp.saveAndShrink _ _ :: rest => countShrink rest + 1
  | _ :: rest => countShrink rest

/-! Helper lemmas about the modelled store operations. -/

lemma mark_as_primary_clips (m : ClipboardManager) (i : Nat) :
    (m.mark_as_primary i).1.clips = m.clips := by
  unfold ClipboardManager.mark_as_primary
  split <;> rfl

lemma mark_as_clipboard_clips (m : ClipboardManager) (i : Nat) :
    (m.mark_as_clipboard i).1.clips = m.clips := by
  unfold ClipboardManager.mark_as_clipboard
  split <;> rfl

lemma mark_as_primary_cap (m : ClipboardManager) (i : Nat) :
    (m.mark_as_primary i).1.cap = m.cap := by
  unfold ClipboardManager.mark_as_primary
  split <;> rfl

lemma mark_as_clipboard_cap (m : ClipboardManager) (i : Nat) :
    (m.mark_as_clipboard i).1.cap = m.cap := by
  unfold ClipboardManager.mark_as_clipboard
  split <;> rfl

lemma mark_as_clipboard_primaryMarker (m : ClipboardManager) (i : Nat) :
    (m.mark_as_clipboard i).1.primaryMarker = m.primaryMarker := by
  unfold ClipboardManager.mark_as_clipboard
  split <;> rfl

lemma mark_as_primary_hit (m : ClipboardManager) (i : Nat)
    (h : m.clips.any (fun e => e.id == i) = true) :
    (m.mark_as_primary i).1.primaryMarker = some i := by
  unfold ClipboardManager.mark_as_primary
  rw [if_pos h]

lemma mark_as_clipboard_hit (m : ClipboardManager) (i : Nat)
    (h : m.clips.any (fun e => e.id == i) = true) :
    (m.mark_as_clipboard i).1.clipboardMarker = some i := by
  unfold ClipboardManager.mark_as_clipboard
  rw [if_pos h]

lemma put_failing (h : HistoryManager) (d : ClipboardData) :
    (h.put d).1.failing = h.failing := by
  unfold HistoryManager.put
  split <;> rfl

/-! Helper lemmas about `handle_event` on a successfully received event. -/

lemma handle_event_ok_cm (s : WorkerState) (e : ClipboardEvent) :
    (handle_event s (Except.ok e)).1.cm =
      (((s.cm.insert (ClipboardData.fromEvent e)).2.mark_as_primary
          s.cm.nextId).1.mark_as_clipboard s.cm.nextId).1 := rfl

lemma handle_event_ok_clips (s : WorkerState) (e : ClipboardEvent) :
    (handle_event s (Except.ok e)).1.cm.clips =
      ⟨s.cm.nextId, ClipboardData.fromEvent e⟩ :: s.cm.clips := by
  rw [handle_event_ok_cm, mark_as_clipboard_clips, mark_as_primary_clips]
  rfl

lemma handle_event_ok_cap (s : WorkerState) (e : ClipboardEvent) :
    (handle_event s (Except.ok e)).1.cm.cap = s.cm.cap := by
  rw [handle_event_ok_cm, mark_as_clipboard_cap, mark_as_primary_cap]
  rfl

lemma insert_any_hit (s : WorkerState) (e : ClipboardEvent) :
    ((s.cm.insert (ClipboardData.fromEvent e)).2.clips.any
      (fun x => x.id == s.cm.nextId)) = true := by
  simp [ClipboardManager.insert]

lemma handle_event_ok_primary (s : WorkerState) (e : ClipboardEvent) :
    (handle_event s (Except.ok e)).1.cm.primaryMarker = some s.cm.nextId := by
  rw [handle_event_ok_cm, mark_as_clipboard_primaryMarker,
    mark_as_primary_hit _ _ (insert_any_hit s e)]

lemma handle_event_ok_clipboard (s : WorkerState) (e : ClipboardEvent) :
    (handle_event s (Except.ok e)).1.cm.clipboardMarker = some s.cm.nextId := by
  rw [handle_event_ok_cm]
  rw [mark_as_clipboard_hit]
  rw [mark_as_primary_clips]
  exact insert_any_hit s e

lemma handle_event_ok_hm (s : WorkerState) (e : ClipboardEvent) :
    (handle_event s (Except.ok e)).1.hm =
      (s.hm.put (ClipboardData.fromEvent e)).1 := rfl

lemma handle_event_ok_hm_failing (s : WorkerState) (e : ClipboardEvent) :
    (handle_event s (Except.ok e)).1.hm.failing = s.hm.failing := by
  rw [handle_event_ok_hm, put_failing]

lemma handle_event_ok_log (s : WorkerState) (e : ClipboardEvent) :
    (handle_event s (Except.ok e)).1.log = s.log ++
      [StoreOp.insertOp (ClipboardData.fromEvent e),
        StoreOp.markPrimary s.cm.nextId,
        StoreOp.markClipboard s.cm.nextId,
        StoreOp.histPut (ClipboardData.fromEvent e)] := rfl

lemma countShrink_append (a b : List StoreOp) :
    countShrink (a ++ b) = countShrink a + countShrink b := by
  induction a with
  | nil => simp [countShrink]
  | cons x xs ih =>
      cases x <;> simp [countShrink, ih, Nat.add_right_comm]

lemma countShrink_handle_event (s : WorkerState)
    (ev : Except RecvError ClipboardEvent) :
    countShrink (handle_event s ev).1.log = countShrink s.log := by
  match ev with
  | Except.error RecvError.Closed =>
      simp [handle_event, countShrink_append, countShrink]
  | Except.error (RecvError.Lagged n) => rfl
  | Except.ok e =>
      simp [handle_event, countShrink_append, countShrink]

lemma countShrink_step (s : WorkerState) (b : Branch) :
    countShrink (step s b).1.log = countShrink s.log := by
  match b with
  | Branch.event =>
      match h : s.eventQueue with
      | [] => simp [step, h]
      | ev :: rest =>
          simp only [step, h]
          exact countShrink_handle_event _ ev
  | Branch.message =>
      match h : s.msgQueue with
      | m :: rest => simp [step, h]
      | [] =>
          simp only [step, h]
          split <;> rfl

lemma countShrink_runLoop (sched : List Branch) (s : WorkerState) :
    countShrink (runLoop s sched).1.log = countShrink s.log := by
  induction sched generalizing s with
  | nil => rfl
  | cons b bs ih =>
      simp only [runLoop]
      split
      · exact countShrink_step s b
      · rw [ih]
        exact countShrink_step s b

lemma runLoop_cons (s : WorkerState) (b : Branch) (bs : List Branch) :
    runLoop s (b :: bs) =
      if (step s b).2 then ((step s b).1, true)
      else runLoop (step s b).1 bs := rfl

lemma step_event_cons (s : WorkerState) (ev : Except RecvError ClipboardEvent)
    (rest : List (Except RecvError ClipboardEvent))
    (h : s.eventQueue = ev :: rest) :
    step s Branch.event = handle_event { s with eventQueue := rest } ev := by
  simp only [step, h]

lemma step_message_cons (s : WorkerState) (m : Message) (rest : List Message)
    (h : s.msgQueue = m :: rest) :
    step s Branch.message =
      ({ s with msgQueue := rest }, handle_message (some m)) := by
  simp only [step, h]

/-- Processing a batch of successfully received events followed by one
`Shutdown` control message: the loop quits with all events accumulated in the
Clip Store most-recent-first, capacity untouched, history health untouched. -/
lemma runLoop_events (es : List ClipboardEvent) :
    ∀ s : WorkerState, s.eventQueue = es.map Except.ok →
      s.msgQueue = [Message.Shutdown] →
      ∃ s1, runLoop s
          (List.replicate es.length Branch.event ++ [Branch.message]) =
        (s1, true) ∧
        s1.cm.clips.map ClipEntry.data =
          es.reverse.map ClipboardData.fromEvent ++
            s.cm.clips.map ClipEntry.data ∧
        s1.cm.cap = s.cm.cap ∧
        s1.hm.failing = s.hm.failing := by
  induction es with
  | nil =>
      intro s h1 h2
      refine ⟨{ s with msgQueue := [] }, ?_, by simp, rfl, rfl⟩
      show runLoop s [Branch.message] = ({ s with msgQueue := [] }, true)
      rw [runLoop_cons, step_message_cons s Message.Shutdown [] h2]
      rfl
  | cons e es ih =>
      intro s h1 h2
      have hq : s.eventQueue = Except.ok e :: es.map Except.ok := by
        rw [h1]; rfl
      obtain ⟨s1, hrun, hclips, hcap, hfail⟩ :=
        ih (handle_event { s with eventQueue := es.map Except.ok }
            (Except.ok e)).1 rfl h2
      refine ⟨s1, ?_, ?_, ?_, ?_⟩
      · show runLoop s (Branch.event ::
            (List.replicate es.length Branch.event ++ [Branch.message])) =
          (s1, true)
        rw [runLoop_cons, step_event_cons s _ _ hq]
        exact hrun
      · rw [hclips, handle_event_ok_clips]
        simp [List.reverse_cons]
      · rw [hcap]
        exact handle_event_ok_cap _ e
      · rw [hfail]
        exact handle_event_ok_hm_failing _ e

/-- The event of spec Scenario B. -/
def helloEvent : ClipboardEvent :=
  { clipboard_type := ClipboardType.Clipboard, data := "hello" }

/-- Claim C1: every successfully received clipboard event, regardless of its
selection kind, is converted to `ClipboardData`, inserted into the Clip Store
(obtaining a record id), marked as the current Primary selection and then as
the current Clipboard selection (in that order), and then written to the
History Store via `put`; concretely, after one `Event(Clipboard, "hello")`
from a fresh state both selection markers point at the same new record id and
the History Store contains one record with content "hello". -/
theorem handle_event_records_and_selects (s : WorkerState) (e : ClipboardEvent) :
    (handle_event s (Except.ok e)).2 = false ∧
    (handle_event s (Except.ok e)).1.cm.clips =
      ⟨s.cm.nextId, ClipboardData.fromEvent e⟩ :: s.cm.clips ∧
    (handle_event s (Except.ok e)).1.cm.primaryMarker = some s.cm.nextId ∧
    (handle_event s (Except.ok e)).1.cm.clipboardMarker = some s.cm.nextId ∧
    (handle_event s (Except.ok e)).1.hm =
      (s.hm.put (ClipboardData.fromEvent e)).1 ∧
    (handle_event s (Except.ok e)).1.log = s.log ++
      [StoreOp.insertOp (ClipboardData.fromEvent e),
        StoreOp.markPrimary s.cm.nextId,
        StoreOp.markClipboard s.cm.nextId,
        StoreOp.histPut (ClipboardData.fromEvent e)] ∧
    (handle_event (initWorker 10 [] []) (Except.ok helloEvent)).1.cm.primaryMarker
      = some 0 ∧
    (handle_event (initWorker 10 [] []) (Except.ok helloEvent)).1.cm.clipboardMarker
      = some 0 ∧
    (handle_event (initWorker 10 [] []) (Except.ok helloEvent)).1.hm.records =
      [{ source := ClipboardType.Clipboard, data := "hello" }] :=
  ⟨rfl, handle_event_ok_clips s e, handle_event_ok_primary s e,
    handle_event_ok_clipboard s e, rfl, rfl, by rfl, by rfl, by rfl⟩

/-- Claim C4: a `Closed` signal from the event stream makes the coordinator
send exactly one internal shutdown on the control channel and quit its loop,
leaving the stores untouched; this holds even from a fresh state with no prior
event and no control message ever sent. -/
theorem closed_emits_one_shutdown (s : WorkerState) :
    (handle_event s (Except.error RecvError.Closed)).2 = true ∧
    (handle_event s (Except.error RecvError.Closed)).1.log =
      s.log ++ [StoreOp.ctlSend CtlMessage.Shutdown] ∧
    (handle_event { s with ctlReceiverAlive := true }
        (Except.error RecvError.Closed)).1.ctlDelivered =
      s.ctlDelivered ++ [CtlMessage.Shutdown] ∧
    (handle_event s (Except.error RecvError.Closed)).1.cm = s.cm ∧
    (handle_event s (Except.error RecvError.Closed)).1.hm = s.hm ∧
    runLoop (initWorker 10 [Except.error RecvError.Closed] []) [Branch.event] =
      ({ initWorker 10 [] [] with
          ctlDelivered := [CtlMessage.Shutdown],
          log := [StoreOp.ctlSend CtlMessage.Shutdown] }, true) :=
  ⟨rfl, rfl, by simp [handle_event], rfl, rfl, by rfl⟩

/-- Claim C5: once the loop observes a `Shutdown` control message, or closure
of the control channel, it terminates immediately with the stores untouched
and never handles another clipboard event, whatever the rest of the schedule
holds; channel closure is handled identically to an explicit `Shutdown`. -/
theorem shutdown_message_terminates (s : WorkerState) (q : List Message)
    (rest : List Branch) :
    runLoop { s with msgQueue := Message.Shutdown :: q }
        (Branch.message :: rest) = ({ s with msgQueue := q }, true) ∧
    runLoop { s with msgQueue := [], msgClosed := true }
        (Branch.message :: rest) =
      ({ s with msgQueue := [], msgClosed := true }, true) ∧
    handle_message none = handle_message (some Message.Shutdown) :=
  ⟨by rfl, by rfl, rfl⟩

/-- Claim C6: a `Lagged` notification changes nothing at all — no insert, no
mark, no history put, no control send, no loop exit: the handler returns the
state unchanged with `quit = false`, and the loop simply moves on. -/
theorem lagged_is_noop (s : WorkerState) (n : Nat)
    (rest : List (Except RecvError ClipboardEvent)) (sched : List Branch) :
    handle_event s (Except.error (RecvError.Lagged n)) = (s, false) ∧
    runLoop { s with eventQueue := Except.error (RecvError.Lagged n) :: rest }
        (Branch.event :: sched) =
      runLoop { s with eventQueue := rest } sched :=
  ⟨rfl, by rfl⟩

/-- The fresh worker of spec Scenario C: the event source closes with zero
prior events and no control message is ever sent. -/
def closedWorker : WorkerState :=
  initWorker 7 [Except.error RecvError.Closed] []

/-- The completed run of Scenario C, spelled out: one internal shutdown
delivered, flush performed with the empty record list and capacity 7. -/
def closedResult : WorkerState × Except String Unit :=
  ({ cm := initManager 7, hm := { records := [], failing := false },
      eventQueue := [], msgQueue := [], msgClosed := false,
      ctlReceiverAlive := true, ctlDelivered := [CtlMessage.Shutdown],
      log := [StoreOp.ctlSend CtlMessage.Shutdown, StoreOp.listClips,
        StoreOp.queryCapacity, StoreOp.saveAndShrink [] 7] },
    Except.ok ())

/-- Claim C2: whenever the loop exits, by whatever path, the termination
sequence runs exactly once: the final log extends the loop-exit log by
precisely one `list`, one `capacity` and one `save_and_shrink_to` carrying
exactly that snapshot and that capacity; the shrink count rises by exactly
one over the whole run; and in Scenario C (event source closes with zero
prior events) the flush still runs, with an empty record list. -/
theorem run_flush_snapshot_once (s : WorkerState) (sched : List Branch)
    (p : WorkerState × Except String Unit) (h : run s sched = some p) :
    p.1.log = (runLoop s sched).1.log ++
      [StoreOp.listClips, StoreOp.queryCapacity,
        StoreOp.saveAndShrink (runLoop s sched).1.cm.list
          (runLoop s sched).1.cm.capacity] ∧
    p.1.cm = (runLoop s sched).1.cm ∧
    countShrink p.1.log = countShrink s.log + 1 ∧
    run closedWorker [Branch.event] = some closedResult ∧
    closedResult.1.hm.records = [] := by
  simp only [run] at h
  split at h
  · injection h with h1
    rw [← h1]
    refine ⟨rfl, rfl, ?_, by rfl, rfl⟩
    rw [show (terminate (runLoop s sched).1).1.log =
        (runLoop s sched).1.log ++
          [StoreOp.listClips, StoreOp.queryCapacity,
            StoreOp.saveAndShrink (runLoop s sched).1.cm.list
              (runLoop s sched).1.cm.capacity] from rfl,
      countShrink_append, countShrink_runLoop]
    rfl
  · exact absurd h (by simp)

/-- Witness for C2 at a concrete input: Scenario C's run flushes exactly
once. -/
theorem run_flush_snapshot_once_witness :
    countShrink closedResult.1.log = countShrink closedWorker.log + 1 :=
  (run_flush_snapshot_once closedWorker [Branch.event] closedResult rfl).2.2.1

/-- A worker whose History Store fails every persistence operation. -/
def failWorker : WorkerState :=
  { cm := initManager 4, hm := { records := [], failing := true },
    eventQueue := [], msgQueue := [Message.Shutdown], msgClosed := false,
    ctlReceiverAlive := true, ctlDelivered := [], log := [] }

/-- The completed run of `failWorker`: the flush failed, yet the run result is
`Ok(())`. -/
def failResult : WorkerState × Except String Unit :=
  ({ cm := initManager 4, hm := { records := [], failing := true },
      eventQueue := [], msgQueue := [], msgClosed := false,
      ctlReceiverAlive := true, ctlDelivered := [],
      log := [StoreOp.listClips, StoreOp.queryCapacity,
        StoreOp.saveAndShrink [] 4] },
    Except.ok ())

/-- Claim C7: whenever the coordinator's run completes, its result is
`Ok(())`: no error from a mark, put, or save_and_shrink_to operation is ever
propagated into the run's own completion result. -/
theorem run_reports_success (s : WorkerState) (sched : List Branch)
    (p : WorkerState × Except String Unit) (h : run s sched = some p) :
    p.2 = Except.ok () := by
  simp only [run] at h
  split at h
  · injection h with h1
    rw [← h1]
  · exact absurd h (by simp)

/-- Witness for C7 at a concrete input: a run whose final flush fails (the
History Store rejects every operation) still completes with `Ok(())`. -/
theorem run_reports_success_witness : failResult.2 = Except.ok () :=
  run_reports_success failWorker [Branch.message] failResult rfl

/-- The worker of spec Scenario D: two `Shutdown` control messages enqueued
before the loop next polls. -/
def twoShutdownWorker : WorkerState :=
  initWorker 9 [] [Message.Shutdown, Message.Shutdown]

/-- Claim C8: with two `Shutdown` messages enqueued, the loop observes exactly
one, terminates, and the run still reports success while the second message is
left unconsumed in the channel. -/
theorem second_shutdown_unconsumed (s : WorkerState) (q : List Message)
    (rest : List Branch) :
    runLoop { s with msgQueue := Message.Shutdown :: Message.Shutdown :: q }
        (Branch.message :: rest) =
      ({ s with msgQueue := Message.Shutdown :: q }, true) ∧
    (run twoShutdownWorker [Branch.message]).map
        (fun p => (p.1.msgQueue, p.2)) =
      some ([Message.Shutdown], Except.ok ()) :=
  ⟨by rfl, by rfl⟩

/-- A clipboard event carrying the given content. -/
def clipEv (content : String) : ClipboardEvent :=
  { clipboard_type := ClipboardType.Clipboard, data := content }

/-- A fresh worker whose event stream will deliver the given events and whose
control channel already holds one `Shutdown`. -/
def eventsWorker (cap : Nat) (es : List ClipboardEvent) : WorkerState :=
  initWorker cap (es.map Except.ok) [Message.Shutdown]

/-- The schedule that delivers `n` events and then the control message. -/
def eventsSched (n : Nat) : List Branch :=
  List.replicate n Branch.event ++ [Branch.message]

/-- Claim C3: for every sequence of clipboard events followed by a shutdown,
with the stores healthy, the History Store after the final flush holds exactly
the last `capacity` events inserted, most-recent-first — hence at most
`capacity` records, each among the last `capacity` inserted; with capacity 3
and clips c1..c5 inserted in order it holds exactly c5, c4, c3. -/
theorem history_bounded_by_capacity (cap : Nat) (es : List ClipboardEvent) :
    ∃ s1, run (eventsWorker cap es) (eventsSched es.length) =
        some (s1, Except.ok ()) ∧
      s1.hm.records = (es.reverse.take cap).map ClipboardData.fromEvent ∧
      s1.hm.records.length ≤ cap ∧
      (∀ d ∈ s1.hm.records,
        d ∈ (es.reverse.take cap).map ClipboardData.fromEvent) ∧
      (run (eventsWorker 3
            [clipEv "c1", clipEv "c2", clipEv "c3", clipEv "c4", clipEv "c5"])
          (eventsSched 5)).map (fun p => (p.1.hm.records, p.2)) =
        some ([{ source := ClipboardType.Clipboard, data := "c5" },
            { source := ClipboardType.Clipboard, data := "c4" },
            { source := ClipboardType.Clipboard, data := "c3" }],
          Except.ok ()) := by
  obtain ⟨sL, hrun, hclips, hcap, hfail⟩ :=
    runLoop_events es (eventsWorker cap es) rfl rfl
  have hlist : sL.cm.list = es.reverse.map ClipboardData.fromEvent := by
    show sL.cm.clips.map ClipEntry.data = _
    rw [hclips]
    simp [eventsWorker, initWorker, initManager]
  have hcapv : sL.cm.capacity = cap := hcap
  have hfailv : sL.hm.failing = false := hfail
  have hrecords : (terminate sL).1.hm.records =
      (es.reverse.take cap).map ClipboardData.fromEvent := by
    show (sL.hm.save_and_shrink_to sL.cm.list sL.cm.capacity).1.records = _
    unfold HistoryManager.save_and_shrink_to
    rw [if_neg (by rw [hfailv]; exact Bool.false_ne_true)]
    rw [hlist, hcapv]
    exact (List.map_take ClipboardData.fromEvent es.reverse cap).symm
  refine ⟨(terminate sL).1, ?_, hrecords, ?_, ?_, by rfl⟩
  · show run (eventsWorker cap es)
        (List.replicate es.length Branch.event ++ [Branch.message]) = _
    simp [run, hrun]
  · rw [hrecords, List.length_map]
    exact (List.length_take cap es.reverse).symm ▸ Nat.min_le_left _ _
  · intro d hd
    rwa [hrecords] at hd

/-- Claim C9: the termination sequence never mutates the Clip Store: it issues
only the reads `list()` and `capacity()` on it (plus the history flush), so
the Clip Store — records, markers, everything — is identical before and after
the shutdown flush. -/
theorem terminate_reads_only (s : WorkerState) :
    (terminate s).1.cm = s.cm ∧
    (terminate s).1.eventQueue = s.eventQueue ∧
    (terminate s).1.msgQueue = s.msgQueue ∧
    (terminate s).1.ctlDelivered = s.ctlDelivered ∧
    (terminate s).1.log = s.log ++
      [StoreOp.listClips, StoreOp.queryCapacity,
        StoreOp.saveAndShrink s.cm.list s.cm.capacity] :=
  ⟨rfl, rfl, rfl, rfl, rfl⟩

/-- Claim C10: when the event stream closes while the control channel's
receiver is already gone, the failed internal shutdown send is discarded: the
handler still quits, nothing is delivered on the control channel, and the run
still performs the full termination flush and completes. -/
theorem dead_ctl_receiver_still_flushes (s : WorkerState)
    (rest : List (Except RecvError ClipboardEvent)) :
    (handle_event { s with ctlReceiverAlive := false }
        (Except.error RecvError.Closed)).2 = true ∧
    (handle_event { s with ctlReceiverAlive := false }
        (Except.error RecvError.Closed)).1.ctlDelivered = s.ctlDelivered ∧
    run { s with
          ctlReceiverAlive := false,
          eventQueue := Except.error RecvError.Closed :: rest }
        [Branch.event] =
      some ((terminate { s with
          ctlReceiverAlive := false,
          eventQueue := rest,
          log := s.log ++ [StoreOp.ctlSend CtlMessage.Shutdown] }).1,
        Except.ok ()) :=
  ⟨rfl, by simp [handle_event], by rfl⟩

end Clipcat
